import Mathlib

/-!
Verification of `verify_signature.py` (pdfsign): a shallow embedding of the
script's PDF signature-field inspection, together with a spec-modelled
reference resolver for the PDF object reader described in the design spec.

The embedding mirrors the Python source line by line:
* PDF values are modelled by `PdfValue`; a parsed document (`PdfDoc`) is an
  indirect-object store plus a trailer dictionary.
* PyPDF2 operations used by the script are modelled by `getObject`
  (`IndirectObject.get_object`), `pyIndex` (dictionary `__getitem__`, which
  resolves the looked-up value), `pyContains` (Python `in`), `dictGetD`
  (plain `dict.get` with a default, no resolution) and `asArr`.
* Python exceptions are `PyErr`; fallible steps return `Except PyErr`.
* Printed output is a list of `OutEvent`s: plain messages and structured
  signature-detail blocks (`Descriptor`).
* The command-line entry point threads an explicit file system so that the
  frame property (read-only access) is expressible.
-/

/-- The small PDF value taxonomy the script manipulates. -/
inductive PdfValue : Type where
  | name : String → PdfValue
  | str : String → PdfValue
  | num : Int → PdfValue
  | dict : List (String × PdfValue) → PdfValue
  | arr : List PdfValue → PdfValue
  | ref : Nat → Nat → PdfValue
  | nullV : PdfValue
deriving Repr

/-- A PDF dictionary body: association list from name keys to values. -/
abbrev Dict := List (String × PdfValue)

/-- Python exceptions that the script's operations can raise; all are caught
by the single `except Exception` handler. -/
inductive PyErr : Type where
  | keyError : String → PyErr
  | typeError : String → PyErr
  | ioError : String → PyErr
  | parseError : String → PyErr
deriving Repr

/-- Render an exception as Python would when interpolated into the
`"✗ Error reading PDF: ..."` message. -/
def PyErr.render : PyErr → String
  | .keyError s => s
  | .typeError s => s
  | .ioError s => s
  | .parseError s => s

/-- First-match association-list lookup (Python `dict` keys are unique, so
first match is the match). -/
def lookupDict : Dict → String → Option PdfValue
  | [], _ => none
  | (k, v) :: rest, key => if k = key then some v else lookupDict rest key

/-- Python `key in d` on a dictionary. -/
def dictHasKey (d : Dict) (key : String) : Bool :=
  (lookupDict d key).isSome

/-- Python `d.get(key, default)`: plain lookup with default, no resolution
of indirect references (PyPDF2's `DictionaryObject.get` is inherited from
`dict`). -/
def dictGetD (d : Dict) (key : String) (dflt : PdfValue) : PdfValue :=
  (lookupDict d key).getD dflt

/-- The indirect-object store of a parsed document: (object number,
generation number) keyed. -/
abbrev ObjStore := List ((Nat × Nat) × PdfValue)

/-- Lookup in the indirect-object store. -/
def lookupStore : ObjStore → Nat × Nat → Option PdfValue
  | [], _ => none
  | (k, v) :: rest, key => if k = key then some v else lookupStore rest key

/-- A parsed PDF document as PyPDF2 exposes it to the script: the object
store and the trailer dictionary. -/
structure PdfDoc : Type where
  store : ObjStore
  trailer : Dict

/-- PyPDF2 `PdfObject.get_object()`: an indirect reference resolves through
the store (a missing object is a parse failure); any direct object returns
itself. -/
def getObject (doc : PdfDoc) : PdfValue → Except PyErr PdfValue
  | PdfValue.ref n g =>
    match lookupStore doc.store (n, g) with
    | some v => Except.ok v
    | none => Except.error (PyErr.parseError "could not find object")
  | v => Except.ok v

/-- Python subscript `v[key]` with a string key, as the script uses it:
PyPDF2 `DictionaryObject.__getitem__` looks the key up and resolves the
result with `get_object`; a missing key raises `KeyError`; subscripting a
non-dictionary with a string raises `TypeError`. -/
def pyIndex (doc : PdfDoc) (v : PdfValue) (key : String) : Except PyErr PdfValue :=
  match v with
  | PdfValue.dict d =>
    match lookupDict d key with
    | some w => getObject doc w
    | none => Except.error (PyErr.keyError key)
  | PdfValue.arr _ => Except.error (PyErr.typeError "list indices must be integers")
  | _ => Except.error (PyErr.typeError "object is not subscriptable")

/-- PyPDF2 name and string objects are `str` subclasses, so Python `==`
against a string literal compares the text. -/
def pyEqStr : PdfValue → String → Bool
  | PdfValue.name n, s => n = s
  | PdfValue.str t, s => t = s
  | _, _ => false

/-- Python `key in v` for a string key: key membership on dictionaries,
element membership on lists, `TypeError` otherwise. -/
def pyContains (v : PdfValue) (key : String) : Except PyErr Bool :=
  match v with
  | PdfValue.dict d => Except.ok (dictHasKey d key)
  | PdfValue.arr xs => Except.ok (xs.any (fun x => pyEqStr x key))
  | _ => Except.error (PyErr.typeError "argument is not iterable")

/-- `len(v)` and `for _ in v` together require the resolved `/Fields` value
to be an array. -/
def asArr : PdfValue → Except PyErr (List PdfValue)
  | PdfValue.arr xs => Except.ok xs
  | _ => Except.error (PyErr.typeError "object is not iterable")

/-- The signature-dictionary details printed when a qualifying field has a
`/V` value (source lines 29-34). -/
structure SigDetails : Type where
  filt : PdfValue
  subFilter : PdfValue
  reason : PdfValue
  location : PdfValue
  date : PdfValue
  signer : PdfValue
deriving Repr

/-- One printed signature block (source lines 24-34): the field name, and
the signature-dictionary details when `/V` is present. -/
structure Descriptor : Type where
  fieldName : PdfValue
  details : Option SigDetails
deriving Repr

/-- Source lines 29-34: each `sig_dict.get` with its documented default. -/
def mkDetails (sd : Dict) : SigDetails :=
  { filt := dictGetD sd "/Filter" (PdfValue.str "Unknown")
    subFilter := dictGetD sd "/SubFilter" (PdfValue.str "Unknown")
    reason := dictGetD sd "/Reason" (PdfValue.str "N/A")
    location := dictGetD sd "/Location" (PdfValue.str "N/A")
    date := dictGetD sd "/M" (PdfValue.str "N/A")
    signer := dictGetD sd "/Name" (PdfValue.str "Unknown") }

/-- Source line 28: `sig_dict = field["/V"].get_object()` — subscripting
resolves once, then `get_object` resolves again; the subsequent `.get`
calls require a dictionary. -/
def sigDictOf (doc : PdfDoc) (fd : Dict) : Except PyErr Dict :=
  match pyIndex doc (PdfValue.dict fd) "/V" with
  | Except.error e => Except.error e
  | Except.ok v1 =>
    match getObject doc v1 with
    | Except.error e => Except.error e
    | Except.ok (PdfValue.dict sd) => Except.ok sd
    | Except.ok _ => Except.error (PyErr.typeError "object has no get method")

/-- Source lines 24-34: the printed block for one qualifying field — the
field name via `field.get('/T', 'Unknown')`, then, if `/V` is present, the
signature dictionary's entries with their defaults. -/
def descriptorOf (doc : PdfDoc) (fd : Dict) : Except PyErr Descriptor :=
  if dictHasKey fd "/V" then
    match sigDictOf doc fd with
    | Except.error e => Except.error e
    | Except.ok sd =>
      Except.ok { fieldName := dictGetD fd "/T" (PdfValue.str "Unknown")
                  details := some (mkDetails sd) }
  else
    Except.ok { fieldName := dictGetD fd "/T" (PdfValue.str "Unknown")
                details := none }

/-- The body of the `for field_ref in fields` loop (source lines 21-34):
resolve the field reference, read `/FT` (raising `KeyError` when absent),
and produce a printed block exactly when `/FT` equals `/Sig`. -/
def perFieldRun (doc : PdfDoc) (fr : PdfValue) : Except PyErr (Option Descriptor) :=
  match getObject doc fr with
  | Except.error e => Except.error e
  | Except.ok field =>
    match field with
    | PdfValue.dict fd =>
      match pyIndex doc field "/FT" with
      | Except.error e => Except.error e
      | Except.ok ft =>
        if pyEqStr ft "/Sig" then
          match descriptorOf doc fd with
          | Except.error e => Except.error e
          | Except.ok d => Except.ok (some d)
        else
          Except.ok none
    | _ => Except.error (PyErr.typeError "object is not subscriptable")

/-- Output of the script: plain printed messages, and the structured
signature-detail blocks. -/
inductive OutEvent : Type where
  | msg : String → OutEvent
  | descriptor : Descriptor → OutEvent
deriving Repr

/-- The signature descriptors appearing in an output stream, in order. -/
def descriptorsOf (evs : List OutEvent) : List Descriptor :=
  evs.filterMap (fun ev =>
    match ev with
    | OutEvent.descriptor d => some d
    | OutEvent.msg _ => none)

/-- Source line 14. -/
def hasAcroMsg : String := "✓ PDF has AcroForm signature structure"

/-- Source line 19. -/
def foundMsg (n : Nat) : String :=
  "✓ Found " ++ toString n ++ " signature field(s)"

/-- Source line 37. -/
def noSigMsg : String := "✗ No signature found in PDF"

/-- Source line 41. -/
def errMsg (e : PyErr) : String := "✗ Error reading PDF: " ++ e.render

/-- The field loop (source lines 21-34): events emitted so far and either
normal completion or the first uncaught exception. -/
def processFields (doc : PdfDoc) : List PdfValue → List OutEvent × Except PyErr Unit
  | [] => ([], Except.ok ())
  | fr :: rest =>
    match perFieldRun doc fr with
    | Except.error e => ([], Except.error e)
    | Except.ok none => processFields doc rest
    | Except.ok (some d) =>
      let (evs, r) := processFields doc rest
      (OutEvent.descriptor d :: evs, r)

/-- The body of the `try` block (source lines 8-38), after the file has been
opened and parsed into `doc`: walk trailer → root → AcroForm → Fields,
print as the source does, and return the source's boolean. -/
def verifyInner (doc : PdfDoc) : List OutEvent × Except PyErr Bool :=
  match pyIndex doc (PdfValue.dict doc.trailer) "/Root" with
  | Except.error e => ([], Except.error e)
  | Except.ok rootv =>
    match pyContains rootv "/AcroForm" with
    | Except.error e => ([], Except.error e)
    | Except.ok false => ([OutEvent.msg noSigMsg], Except.ok false)
    | Except.ok true =>
      match pyIndex doc rootv "/AcroForm" with
      | Except.error e => ([], Except.error e)
      | Except.ok acrov =>
        match pyContains acrov "/Fields" with
        | Except.error e => ([OutEvent.msg hasAcroMsg], Except.error e)
        | Except.ok false => ([OutEvent.msg hasAcroMsg], Except.ok true)
        | Except.ok true =>
          match pyIndex doc acrov "/Fields" with
          | Except.error e => ([OutEvent.msg hasAcroMsg], Except.error e)
          | Except.ok fieldsv =>
            match asArr fieldsv with
            | Except.error e => ([OutEvent.msg hasAcroMsg], Except.error e)
            | Except.ok fields =>
              let (evs, r) := processFields doc fields
              (OutEvent.msg hasAcroMsg :: OutEvent.msg (foundMsg fields.length) :: evs,
                match r with
                | Except.ok _ => Except.ok true
                | Except.error e => Except.error e)

/-- What opening and parsing the path produced: a parsed document, or an
I/O or parse failure raised inside the `try` block. -/
inductive ReadResult : Type where
  | ok : PdfDoc → ReadResult
  | err : PyErr → ReadResult

/-- `verify_pdf_signature` (source lines 5-42): the whole body runs under a
single `except Exception` handler that prints the error and returns
`False`; the function itself never raises. -/
def verify_pdf_signature (r : ReadResult) : List OutEvent × Bool :=
  match r with
  | ReadResult.err e => ([OutEvent.msg (errMsg e)], false)
  | ReadResult.ok doc =>
    match verifyInner doc with
    | (evs, Except.ok b) => (evs, b)
    | (evs, Except.error e) => (evs ++ [OutEvent.msg (errMsg e)], false)

/-- The file system visible to the process: what opening and parsing each
path would produce. -/
abbrev FileSystem := List (String × ReadResult)

/-- Path lookup in the file-system model. -/
def fsLookup : FileSystem → String → Option ReadResult
  | [], _ => none
  | (p, r) :: rest, path => if p = path then some r else fsLookup rest path

/-- `open(pdf_path, 'rb')` followed by `PyPDF2.PdfReader(f)`: a read-only
access that returns the file system unchanged; a missing path is an I/O
failure raised inside the `try` block. -/
def openRead (fs : FileSystem) (path : String) : FileSystem × ReadResult :=
  (fs,
    match fsLookup fs path with
    | some r => r
    | none => ReadResult.err (PyErr.ioError "No such file or directory"))

/-- Source line 46. -/
def usageMsg : String := "Usage: python verify_signature.py <pdf_file>"

/-- The `__main__` block (source lines 44-49): exit 1 with a usage message
when `len(sys.argv) < 2`; otherwise run `verify_pdf_signature` on
`sys.argv[1]`, ignore its return value, and fall off the end of the script
(exit code 0). Returns (file system, exit code, printed output). -/
def runMain (fs : FileSystem) (argv : List String) : FileSystem × Nat × List OutEvent :=
  if argv.length < 2 then
    (fs, 1, [OutEvent.msg usageMsg])
  else
    ((openRead fs (argv.getD 1 "")).1, 0,
      (verify_pdf_signature (openRead fs (argv.getD 1 "")).2).1)

/-! ## Spec-modelled reference resolver

The repository delegates indirect-reference resolution to PyPDF2
(`field_ref.get_object()`, source lines 21-22); the guarded resolver the
spec designs (§4.1, §3 invariant) is not in the source tree. It is modelled
here from the spec. -/

/-- Error kinds of the spec's PDF Object Reader (§4.1, §7). -/
inductive ParseErrKind : Type where
  | missingXref : ParseErrKind
  | danglingReference : ParseErrKind
  | cycleDetected : ParseErrKind
  | malformedDictionary : ParseErrKind
deriving Repr, DecidableEq

/-- Modelled from the spec: the resolution loop of the PDF Object Reader of
§4.1, which is not in src/ (the script delegates to PyPDF2). A seen-set of
(object number, generation) guards traversal: revisiting a key fails fast
with `CycleDetected`; a key absent from the table fails with
`DanglingReference`; chained references are followed. Fuel bounds the
recursion; each successful step adds a distinct store key to the seen-set,
so `store.length + 1` fuel is never exhausted before a verdict. -/
def resolveAux (store : ObjStore) : Nat → List (Nat × Nat) → Nat → Nat →
    Except ParseErrKind PdfValue
  | 0, _, _, _ => Except.error ParseErrKind.cycleDetected
  | fuel + 1, seen, n, g =>
    if (n, g) ∈ seen then
      Except.error ParseErrKind.cycleDetected
    else
      match lookupStore store (n, g) with
      | none => Except.error ParseErrKind.danglingReference
      | some (PdfValue.ref n2 g2) => resolveAux store fuel ((n, g) :: seen) n2 g2
      | some v => Except.ok v

/-- Modelled from the spec: `resolve(ref)` of the §4.1 reader contract. -/
def resolve (store : ObjStore) (n g : Nat) : Except ParseErrKind PdfValue :=
  resolveAux store (store.length + 1) [] n g

/-! ## Concrete documents used as witnesses -/

/-- A PDF whose root catalog has no `/AcroForm` key. -/
def docA : PdfDoc := ⟨[], [("/Root", PdfValue.dict [("/Pages", PdfValue.ref 2 0)])]⟩

/-- A PDF with `/AcroForm` but no `/Fields` key. -/
def docB : PdfDoc :=
  ⟨[((1, 0), PdfValue.dict [("/AcroForm", PdfValue.dict [("/SigFlags", PdfValue.num 3)])])],
   [("/Root", PdfValue.ref 1 0)]⟩

/-- A PDF with one signature field whose `/V` dictionary holds only
`/Reason = "Approval"`. -/
def docC : PdfDoc :=
  ⟨[((1, 0), PdfValue.dict [("/AcroForm", PdfValue.ref 2 0)]),
    ((2, 0), PdfValue.dict [("/Fields", PdfValue.arr [PdfValue.ref 3 0])]),
    ((3, 0), PdfValue.dict [("/FT", PdfValue.name "/Sig"), ("/T", PdfValue.str "Signature1"),
      ("/V", PdfValue.ref 4 0)]),
    ((4, 0), PdfValue.dict [("/Reason", PdfValue.str "Approval")])],
   [("/Root", PdfValue.ref 1 0)]⟩

/-- The descriptor the script prints for the signature field of `docC`. -/
def descC : Descriptor :=
  { fieldName := PdfValue.str "Signature1"
    details := some
      { filt := PdfValue.str "Unknown"
        subFilter := PdfValue.str "Unknown"
        reason := PdfValue.str "Approval"
        location := PdfValue.str "N/A"
        date := PdfValue.str "N/A"
        signer := PdfValue.str "Unknown" } }

/-- A PDF with two signature fields, in array order [SigA, SigB]. -/
def docD : PdfDoc :=
  ⟨[((1, 0), PdfValue.dict [("/AcroForm", PdfValue.ref 2 0)]),
    ((2, 0), PdfValue.dict [("/Fields", PdfValue.arr [PdfValue.ref 3 0, PdfValue.ref 4 0])]),
    ((3, 0), PdfValue.dict [("/FT", PdfValue.name "/Sig"), ("/T", PdfValue.str "SigA")]),
    ((4, 0), PdfValue.dict [("/FT", PdfValue.name "/Sig"), ("/T", PdfValue.str "SigB")])],
   [("/Root", PdfValue.ref 1 0)]⟩

/-- A PDF whose single form field lacks `/FT`: reading `field["/FT"]`
raises `KeyError`, which only the outermost handler catches. -/
def docE : PdfDoc :=
  ⟨[((1, 0), PdfValue.dict [("/AcroForm", PdfValue.ref 2 0)]),
    ((2, 0), PdfValue.dict [("/Fields", PdfValue.arr [PdfValue.ref 3 0])]),
    ((3, 0), PdfValue.dict [("/T", PdfValue.str "NoFT")])],
   [("/Root", PdfValue.ref 1 0)]⟩

/-- A file system with a single unreadable path. -/
def fsBad : FileSystem := [("bad.pdf", ReadResult.err (PyErr.ioError "No such file or directory"))]

/-! ## Helper lemmas -/

/-- When the root catalog resolves and has no `/AcroForm` key, the body
prints the "no signature" line and returns `False` without raising. -/
theorem verifyInner_noAcro (doc : PdfDoc) (rootv : PdfValue)
    (h1 : pyIndex doc (PdfValue.dict doc.trailer) "/Root" = Except.ok rootv)
    (h2 : pyContains rootv "/AcroForm" = Except.ok false) :
    verifyInner doc = ([OutEvent.msg noSigMsg], Except.ok false) := by
  simp only [verifyInner, h1, h2]

/-- When the root catalog has `/AcroForm` but the AcroForm value has no
`/Fields` key, the body prints the AcroForm line and returns `True`. -/
theorem verifyInner_acroNoFields (doc : PdfDoc) (rootv acrov : PdfValue)
    (h1 : pyIndex doc (PdfValue.dict doc.trailer) "/Root" = Except.ok rootv)
    (h2 : pyContains rootv "/AcroForm" = Except.ok true)
    (h3 : pyIndex doc rootv "/AcroForm" = Except.ok acrov)
    (h4 : pyContains acrov "/Fields" = Except.ok false) :
    verifyInner doc = ([OutEvent.msg hasAcroMsg], Except.ok true) := by
  simp only [verifyInner, h1, h2, h3, h4]

/-! ## Claim theorems -/

/-- C2: for every PDF whose document catalog has no `/AcroForm` key, the
extractor returns an empty sequence of signature descriptors, treats this
as a valid successful outcome (the body completes normally without
raising, so the error handler never fires), and does not raise. -/
theorem noAcroForm_empty_success (doc : PdfDoc) (rootv : PdfValue)
    (h1 : pyIndex doc (PdfValue.dict doc.trailer) "/Root" = Except.ok rootv)
    (h2 : pyContains rootv "/AcroForm" = Except.ok false) :
    descriptorsOf (verifyInner doc).1 = [] ∧
    (verifyInner doc).2 = Except.ok false ∧
    verify_pdf_signature (ReadResult.ok doc) = ([OutEvent.msg noSigMsg], false) := by
  have hv := verifyInner_noAcro doc rootv h1 h2
  refine ⟨by rw [hv]; rfl, by rw [hv], ?_⟩
  simp only [verify_pdf_signature, hv]

/-- C2 witness: `docA` has no `/AcroForm`; the run yields no descriptors,
no exception, and the "no signature" message. -/
theorem noAcroForm_empty_success_witness :
    descriptorsOf (verifyInner docA).1 = [] ∧
    (verifyInner docA).2 = Except.ok false ∧
    verify_pdf_signature (ReadResult.ok docA) = ([OutEvent.msg noSigMsg], false) :=
  noAcroForm_empty_success docA (PdfValue.dict [("/Pages", PdfValue.ref 2 0)]) rfl rfl

/-- C7: for every PDF whose catalog has `/AcroForm` but whose AcroForm
value has no `/Fields` key, the extractor returns an empty sequence of
descriptors without error (the body returns `True` normally). -/
theorem acroFormNoFields_empty (doc : PdfDoc) (rootv acrov : PdfValue)
    (h1 : pyIndex doc (PdfValue.dict doc.trailer) "/Root" = Except.ok rootv)
    (h2 : pyContains rootv "/AcroForm" = Except.ok true)
    (h3 : pyIndex doc rootv "/AcroForm" = Except.ok acrov)
    (h4 : pyContains acrov "/Fields" = Except.ok false) :
    descriptorsOf (verifyInner doc).1 = [] ∧
    (verifyInner doc).2 = Except.ok true ∧
    verify_pdf_signature (ReadResult.ok doc) = ([OutEvent.msg hasAcroMsg], true) := by
  have hv := verifyInner_acroNoFields doc rootv acrov h1 h2 h3 h4
  refine ⟨by rw [hv]; rfl, by rw [hv], ?_⟩
  simp only [verify_pdf_signature, hv]

/-- C7 witness: `docB` has `/AcroForm` without `/Fields`; the run yields no
descriptors and no error. -/
theorem acroFormNoFields_empty_witness :
    descriptorsOf (verifyInner docB).1 = [] ∧
    (verifyInner docB).2 = Except.ok true ∧
    verify_pdf_signature (ReadResult.ok docB) = ([OutEvent.msg hasAcroMsg], true) :=
  acroFormNoFields_empty docB
    (PdfValue.dict [("/AcroForm", PdfValue.dict [("/SigFlags", PdfValue.num 3)])])
    (PdfValue.dict [("/SigFlags", PdfValue.num 3)]) rfl rfl rfl rfl

/-- C10: extraction has no side effect beyond read-only access — the entry
point returns the file system unchanged, and so does the open/read step
itself. -/
theorem read_only_frame (fs : FileSystem) (argv : List String) (path : String) :
    (runMain fs argv).1 = fs ∧ (openRead fs path).1 = fs := by
  constructor
  · unfold runMain
    split
    · rfl
    · rfl
  · rfl

/-- C8: extraction is deterministic — identical inputs yield identical
output sequences and identical return values. -/
theorem extraction_deterministic (r1 r2 : ReadResult) (h : r1 = r2) :
    (verify_pdf_signature r1).1 = (verify_pdf_signature r2).1 ∧
    (verify_pdf_signature r1).2 = (verify_pdf_signature r2).2 := by
  rw [h]
  exact ⟨rfl, rfl⟩

/-- C8 witness: determinism at the concrete document `docC`. -/
theorem extraction_deterministic_witness :
    (verify_pdf_signature (ReadResult.ok docC)).1 = (verify_pdf_signature (ReadResult.ok docC)).1 ∧
    (verify_pdf_signature (ReadResult.ok docC)).2 = (verify_pdf_signature (ReadResult.ok docC)).2 :=
  extraction_deterministic (ReadResult.ok docC) (ReadResult.ok docC) rfl

/-- C1 counterexample: `bad.pdf` is unreadable in `fsBad` (opening it
raises an I/O error inside the handler), yet the process exit code is 0,
not non-zero — the `__main__` block ignores the function's return value. -/
theorem cli_exit_zero_on_unreadable :
    fsLookup fsBad "bad.pdf" = some (ReadResult.err (PyErr.ioError "No such file or directory")) ∧
    (runMain fsBad ["verify_signature.py", "bad.pdf"]).2.1 = 0 :=
  ⟨rfl, rfl⟩

/-- C1 (amended): the program exits 1 with a usage message when fewer than
one argument is supplied; with an argument it always exits 0, even when
the file is unreadable or unparseable; an open failure is still reported
with a human-readable message. -/
theorem cli_exit_behavior (fs : FileSystem) (argv : List String) :
    (argv.length < 2 → runMain fs argv = (fs, 1, [OutEvent.msg usageMsg])) ∧
    (2 ≤ argv.length → (runMain fs argv).2.1 = 0) ∧
    (∀ e, 2 ≤ argv.length → (openRead fs (argv.getD 1 "")).2 = ReadResult.err e →
      (runMain fs argv).2.2 = [OutEvent.msg (errMsg e)]) := by
  refine ⟨?_, ?_, ?_⟩
  · intro h
    unfold runMain
    rw [if_pos h]
  · intro h
    unfold runMain
    rw [if_neg (by omega)]
  · intro e h hr
    unfold runMain
    rw [if_neg (by omega)]
    simp only [hr]
    rfl

/-- C1 witness: at the concrete unreadable file, the exit code is 0 and
the error message is printed; with no argument the exit code is 1. -/
theorem cli_exit_behavior_witness :
    runMain fsBad ["verify_signature.py"] = (fsBad, 1, [OutEvent.msg usageMsg]) ∧
    (runMain fsBad ["verify_signature.py", "bad.pdf"]).2.1 = 0 ∧
    (runMain fsBad ["verify_signature.py", "bad.pdf"]).2.2 =
      [OutEvent.msg (errMsg (PyErr.ioError "No such file or directory"))] :=
  ⟨(cli_exit_behavior fsBad ["verify_signature.py"]).1 (by decide),
   (cli_exit_behavior fsBad ["verify_signature.py", "bad.pdf"]).2.1 (by decide),
   (cli_exit_behavior fsBad ["verify_signature.py", "bad.pdf"]).2.2
     (PyErr.ioError "No such file or directory") (by decide) rfl⟩

/-- C9: `verify_pdf_signature` is total at its boundary — an open/parse
failure or any exception raised by the body is caught by the enclosing
handler, reported as a printed error message, and converted to a `False`
return; a normal body completion passes its value through. -/
theorem verify_never_raises :
    (∀ e, verify_pdf_signature (ReadResult.err e) = ([OutEvent.msg (errMsg e)], false)) ∧
    (∀ doc evs e, verifyInner doc = (evs, Except.error e) →
      verify_pdf_signature (ReadResult.ok doc) = (evs ++ [OutEvent.msg (errMsg e)], false)) ∧
    (∀ doc evs b, verifyInner doc = (evs, Except.ok b) →
      verify_pdf_signature (ReadResult.ok doc) = (evs, b)) := by
  refine ⟨fun e => rfl, ?_, ?_⟩
  · intro doc evs e h
    simp only [verify_pdf_signature, h]
  · intro doc evs b h
    simp only [verify_pdf_signature, h]

/-- C9 witness: `docE` has a field with no `/FT`; the `KeyError` raised
mid-loop is caught, printed, and turned into `False`. -/
theorem verify_never_raises_witness :
    verify_pdf_signature (ReadResult.ok docE) =
      ([OutEvent.msg hasAcroMsg, OutEvent.msg (foundMsg 1)] ++
        [OutEvent.msg (errMsg (PyErr.keyError "/FT"))], false) :=
  verify_never_raises.2.1 docE [OutEvent.msg hasAcroMsg, OutEvent.msg (foundMsg 1)]
    (PyErr.keyError "/FT") rfl

/-- Every successful body run determines the root value and the result of
the `/AcroForm` membership test, and the returned boolean equals that
test's outcome. -/
theorem verifyInner_ok_shape (doc : PdfDoc) (evs : List OutEvent) (b : Bool)
    (h : verifyInner doc = (evs, Except.ok b)) :
    ∃ rootv c, pyIndex doc (PdfValue.dict doc.trailer) "/Root" = Except.ok rootv ∧
      pyContains rootv "/AcroForm" = Except.ok c ∧ b = c := by
  unfold verifyInner at h
  split at h
  · simp at h
  next rootv heq1 =>
    split at h
    · simp at h
    · -- ok false
      next heq2 =>
      have hb := congrArg Prod.snd h
      simp at hb
      exact ⟨rootv, false, heq1, heq2, by simp [hb]⟩
    · -- ok true
      next heq2 =>
      refine ⟨rootv, true, heq1, heq2, ?_⟩
      split at h
      · simp at h
      next acrov heq3 =>
        split at h
        · simp at h
        · have hb := congrArg Prod.snd h
          simp at hb
          simp [hb]
        · split at h
          · simp at h
          next fieldsv heq4 =>
            split at h
            · simp at h
            next fields heq5 =>
              split at h
              next evs2 r heq6 =>
                split at h
                · have hb := congrArg Prod.snd h
                  simp at hb
                  simp [hb]
                · simp at h

/-- C3: for every readable PDF, `verify_pdf_signature` returns `True` iff
the root catalog contains the `/AcroForm` key (when no exception occurs):
the boolean signals AcroForm presence only — the `/Fields` array and the
signature-type fields play no part in it. -/
theorem verify_true_iff_acroform (doc : PdfDoc) (evs : List OutEvent) (b : Bool)
    (h : verifyInner doc = (evs, Except.ok b)) :
    (verify_pdf_signature (ReadResult.ok doc)).2 = b ∧
    (b = true ↔ ∃ rootv, pyIndex doc (PdfValue.dict doc.trailer) "/Root" = Except.ok rootv ∧
      pyContains rootv "/AcroForm" = Except.ok true) := by
  obtain ⟨rootv, c, h1, h2, hbc⟩ := verifyInner_ok_shape doc evs b h
  constructor
  · simp only [verify_pdf_signature, h]
  · constructor
    · intro hb
      exact ⟨rootv, h1, by rw [← hbc, hb] at h2; exact h2⟩
    · rintro ⟨rv, hr, hc⟩
      rw [h1] at hr
      injection hr with hr
      subst hr
      rw [h2] at hc
      injection hc with hc
      rw [hbc, hc]

/-- C3 witness: `docB` has `/AcroForm` but no `/Fields` at all, and the
function still returns `True`. -/
theorem verify_true_iff_acroform_witness :
    (verify_pdf_signature (ReadResult.ok docB)).2 = true ∧
    (true = true ↔ ∃ rootv,
      pyIndex docB (PdfValue.dict docB.trailer) "/Root" = Except.ok rootv ∧
      pyContains rootv "/AcroForm" = Except.ok true) :=
  verify_true_iff_acroform docB [OutEvent.msg hasAcroMsg] true rfl

/-- The outcome of one loop iteration, viewed as an optional descriptor:
`some` exactly when the field resolves, qualifies as a signature field and
its block is printed without raising. -/
def perFieldOk (doc : PdfDoc) (fr : PdfValue) : Option Descriptor :=
  match perFieldRun doc fr with
  | Except.ok (some d) => some d
  | _ => none

/-- C5: when the loop over `/Fields` completes without raising, the output
contains exactly one descriptor per qualifying field, in the array order
of `/Fields` (the descriptor stream is the in-order `filterMap` of the
per-field outcome, and its length counts the qualifying fields). -/
theorem fields_in_order (doc : PdfDoc) (fields : List PdfValue) (evs : List OutEvent)
    (h : processFields doc fields = (evs, Except.ok ())) :
    descriptorsOf evs = fields.filterMap (perFieldOk doc) ∧
    (descriptorsOf evs).length =
      (fields.filter (fun fr => (perFieldOk doc fr).isSome)).length := by
  have main : descriptorsOf evs = fields.filterMap (perFieldOk doc) := by
    induction fields generalizing evs with
    | nil =>
      simp only [processFields, Prod.mk.injEq] at h
      rw [← h.1]
      rfl
    | cons fr rest ih =>
      rw [processFields] at h
      split at h
      · simp at h
      · next heq =>
        rw [List.filterMap_cons]
        have : perFieldOk doc fr = none := by simp [perFieldOk, heq]
        rw [this]
        exact ih evs h
      · next d heq =>
        split at h
        next evs2 r heq2 =>
          obtain ⟨he, hr⟩ := Prod.mk.injEq _ _ _ _ |>.mp h
          rw [hr] at heq2
          rw [← he]
          have : perFieldOk doc fr = some d := by simp [perFieldOk, heq]
          rw [List.filterMap_cons, this]
          have hd : descriptorsOf (OutEvent.descriptor d :: evs2) = d :: descriptorsOf evs2 := rfl
          rw [hd, ih evs2 heq2]
  refine ⟨main, ?_⟩
  rw [main]
  clear main h
  induction fields with
  | nil => rfl
  | cons fr rest ih =>
    cases hf : perFieldOk doc fr <;>
      simp [List.filterMap_cons, List.filter_cons, hf, ih]

/-- The descriptors the script prints for `docD`, in `/Fields` order. -/
def descDA : Descriptor := { fieldName := PdfValue.str "SigA", details := none }

/-- Second descriptor of `docD`. -/
def descDB : Descriptor := { fieldName := PdfValue.str "SigB", details := none }

/-- C5 witness: `docD` lists two signature fields [SigA, SigB]; the output
descriptors appear in exactly that order. -/
theorem fields_in_order_witness :
    descriptorsOf [OutEvent.descriptor descDA, OutEvent.descriptor descDB] =
      [PdfValue.ref 3 0, PdfValue.ref 4 0].filterMap (perFieldOk docD) ∧
    (descriptorsOf [OutEvent.descriptor descDA, OutEvent.descriptor descDB]).length =
      ([PdfValue.ref 3 0, PdfValue.ref 4 0].filter
        (fun fr => (perFieldOk docD fr).isSome)).length :=
  fields_in_order docD [PdfValue.ref 3 0, PdfValue.ref 4 0]
    [OutEvent.descriptor descDA, OutEvent.descriptor descDB] rfl

/-- The `.get` defaults of the signature dictionary: each present key is
passed through, each absent key maps to its documented sentinel. -/
theorem mkDetails_defaults (sd : Dict) :
    (∀ v, lookupDict sd "/Reason" = some v → (mkDetails sd).reason = v) ∧
    (lookupDict sd "/Filter" = none → (mkDetails sd).filt = PdfValue.str "Unknown") ∧
    (lookupDict sd "/SubFilter" = none → (mkDetails sd).subFilter = PdfValue.str "Unknown") ∧
    (lookupDict sd "/Reason" = none → (mkDetails sd).reason = PdfValue.str "N/A") ∧
    (lookupDict sd "/Location" = none → (mkDetails sd).location = PdfValue.str "N/A") ∧
    (lookupDict sd "/M" = none → (mkDetails sd).date = PdfValue.str "N/A") ∧
    (lookupDict sd "/Name" = none → (mkDetails sd).signer = PdfValue.str "Unknown") := by
  refine ⟨fun v hv => ?_, fun hn => ?_, fun hn => ?_, fun hn => ?_, fun hn => ?_,
    fun hn => ?_, fun hn => ?_⟩ <;>
    simp_all [mkDetails, dictGetD]

/-- A successfully printed block has the field name with its default, no
details without `/V`, and the signature dictionary's details with `/V`. -/
theorem descriptorOf_spec (doc : PdfDoc) (fd : Dict) (d : Descriptor)
    (h : descriptorOf doc fd = Except.ok d) :
    d.fieldName = dictGetD fd "/T" (PdfValue.str "Unknown") ∧
    (dictHasKey fd "/V" = false → d.details = none) ∧
    (dictHasKey fd "/V" = true →
      ∃ sd, sigDictOf doc fd = Except.ok sd ∧ d.details = some (mkDetails sd)) := by
  unfold descriptorOf at h
  split at h
  · next hV =>
    split at h
    · simp at h
    · next sd heqS =>
      injection h with h
      subst h
      exact ⟨rfl, fun hc => (by rw [hV] at hc; cases hc), fun _ => ⟨sd, heqS, rfl⟩⟩
  · next hV =>
    injection h with h
    subst h
    have hVf : dictHasKey fd "/V" = false := by
      cases hk : dictHasKey fd "/V"
      · rfl
      · exact absurd hk hV
    exact ⟨rfl, fun _ => rfl, fun hc => (by rw [hVf] at hc; cases hc)⟩

/-- C4: a descriptor is produced only for a field whose `/FT` equals
`/Sig`; its field name comes from `/T` (default "Unknown"); when `/V` is
present, filter, sub-filter, reason, location, modification date and
signer name are extracted from the signature dictionary, each absent key
mapping to its documented sentinel (`/Filter`, `/SubFilter`, `/Name` →
"Unknown"; `/Reason`, `/Location`, `/M` → "N/A") rather than failing. -/
theorem sig_descriptor_extraction (doc : PdfDoc) (fr : PdfValue) (d : Descriptor)
    (h : perFieldRun doc fr = Except.ok (some d)) :
    ∃ fd ft,
      getObject doc fr = Except.ok (PdfValue.dict fd) ∧
      pyIndex doc (PdfValue.dict fd) "/FT" = Except.ok ft ∧
      pyEqStr ft "/Sig" = true ∧
      d.fieldName = dictGetD fd "/T" (PdfValue.str "Unknown") ∧
      (lookupDict fd "/T" = none → d.fieldName = PdfValue.str "Unknown") ∧
      (dictHasKey fd "/V" = false → d.details = none) ∧
      (dictHasKey fd "/V" = true →
        ∃ sd, sigDictOf doc fd = Except.ok sd ∧ d.details = some (mkDetails sd) ∧
          (∀ v, lookupDict sd "/Reason" = some v → (mkDetails sd).reason = v) ∧
          (lookupDict sd "/Filter" = none → (mkDetails sd).filt = PdfValue.str "Unknown") ∧
          (lookupDict sd "/SubFilter" = none → (mkDetails sd).subFilter = PdfValue.str "Unknown") ∧
          (lookupDict sd "/Reason" = none → (mkDetails sd).reason = PdfValue.str "N/A") ∧
          (lookupDict sd "/Location" = none → (mkDetails sd).location = PdfValue.str "N/A") ∧
          (lookupDict sd "/M" = none → (mkDetails sd).date = PdfValue.str "N/A") ∧
          (lookupDict sd "/Name" = none → (mkDetails sd).signer = PdfValue.str "Unknown")) := by
  unfold perFieldRun at h
  split at h
  · simp at h
  next field heqObj =>
    split at h
    case _ fd =>
      split at h
      · simp at h
      next ft heqFT =>
        split at h
        · next hsig =>
          split at h
          · simp at h
          next d0 heqD =>
            injection h with h
            injection h with h
            subst h
            obtain ⟨hname, hnoV, hV⟩ := descriptorOf_spec doc fd d0 heqD
            refine ⟨fd, ft, heqObj, heqFT, hsig, hname, ?_, hnoV, ?_⟩
            · intro hT
              rw [hname]
              simp [dictGetD, hT]
            · intro hk
              obtain ⟨sd, hsd, hdet⟩ := hV hk
              obtain ⟨r1, r2, r3, r4, r5, r6, r7⟩ := mkDetails_defaults sd
              exact ⟨sd, hsd, hdet, r1, r2, r3, r4, r5, r6, r7⟩
        · simp at h
    · simp at h

/-- C4 witness: the signature field of `docC` carries `/Reason =
"Approval"` and omits the other optional keys; its descriptor is `descC`,
whose reason is "Approval" and whose remaining entries are the documented
defaults. -/
theorem sig_descriptor_extraction_witness :
    ∃ fd ft,
      getObject docC (PdfValue.ref 3 0) = Except.ok (PdfValue.dict fd) ∧
      pyIndex docC (PdfValue.dict fd) "/FT" = Except.ok ft ∧
      pyEqStr ft "/Sig" = true ∧
      descC.fieldName = dictGetD fd "/T" (PdfValue.str "Unknown") ∧
      (lookupDict fd "/T" = none → descC.fieldName = PdfValue.str "Unknown") ∧
      (dictHasKey fd "/V" = false → descC.details = none) ∧
      (dictHasKey fd "/V" = true →
        ∃ sd, sigDictOf docC fd = Except.ok sd ∧ descC.details = some (mkDetails sd) ∧
        (∀ v, lookupDict sd "/Reason" = some v → (mkDetails sd).reason = v) ∧
        (lookupDict sd "/Filter" = none → (mkDetails sd).filt = PdfValue.str "Unknown") ∧
        (lookupDict sd "/SubFilter" = none → (mkDetails sd).subFilter = PdfValue.str "Unknown") ∧
        (lookupDict sd "/Reason" = none → (mkDetails sd).reason = PdfValue.str "N/A") ∧
        (lookupDict sd "/Location" = none → (mkDetails sd).location = PdfValue.str "N/A") ∧
        (lookupDict sd "/M" = none → (mkDetails sd).date = PdfValue.str "N/A") ∧
        (lookupDict sd "/Name" = none → (mkDetails sd).signer = PdfValue.str "Unknown")) :=
  sig_descriptor_extraction docC (PdfValue.ref 3 0) descC rfl

/-- A successful store lookup needs a non-empty store. -/
theorem lookupStore_length_pos (store : ObjStore) (k : Nat × Nat) (v : PdfValue)
    (h : lookupStore store k = some v) : 0 < store.length := by
  cases store with
  | nil => simp [lookupStore] at h
  | cons a t => simp

/-- C6: resolution of a reference whose path revisits itself fails fast
with `CycleDetected`: a self-referential table entry resolves to the
`CycleDetected` error, and whenever the seen-set already holds the current
(object number, generation) the guard fails immediately, so traversal
never recurses through a revisited object. -/
theorem resolve_cycle_detected (store : ObjStore) (n g : Nat)
    (h : lookupStore store (n, g) = some (PdfValue.ref n g)) :
    resolve store n g = Except.error ParseErrKind.cycleDetected ∧
    (∀ fuel seen, (n, g) ∈ seen →
      resolveAux store (fuel + 1) seen n g = Except.error ParseErrKind.cycleDetected) := by
  constructor
  · have hpos := lookupStore_length_pos store (n, g) _ h
    obtain ⟨m, hm⟩ : ∃ m, store.length = m + 1 := ⟨store.length - 1, by omega⟩
    unfold resolve
    rw [hm]
    show resolveAux store (m + 1 + 1) [] n g = _
    rw [resolveAux]
    simp only [List.not_mem_nil, if_false, h]
    rw [resolveAux]
    simp
  · intro fuel seen hm
    rw [resolveAux]
    simp [hm]

/-- C6 witness: the one-entry table mapping object (1, 0) to a reference
to itself is detected as a cycle. -/
theorem resolve_cycle_detected_witness :
    resolve [((1, 0), PdfValue.ref 1 0)] 1 0 = Except.error ParseErrKind.cycleDetected ∧
    (∀ fuel seen, (1, 0) ∈ seen →
      resolveAux [((1, 0), PdfValue.ref 1 0)] (fuel + 1) seen 1 0 =
        Except.error ParseErrKind.cycleDetected) :=
  resolve_cycle_detected [((1, 0), PdfValue.ref 1 0)] 1 0 rfl
